import Mathlib

/-!
Shallow embedding of `AuthaCAD_V8_OK.py` (land-boundary narration from CAD
entities) and verification of its specification claims.

Modelling conventions:
* CAD floating-point scalars are modelled as `ℚ`; the genuinely real-valued
  operations of the source (`math.sqrt`, `math.atan2`) are modelled with
  `Real.sqrt` and `Complex.arg`, so comparisons of computed distances keep
  the source's Euclidean (square-root based) semantics.
* Fallible code paths (a raised exception, reading a possibly-unassigned
  local variable, indexing an empty list) are modelled with `Except Unit`.
* External collaborators (number-to-words localisation and the slot-value
  stringification done by the template renderer) are passed in as a record
  of functions (`Collab`); the template *texts* themselves are embedded
  verbatim from the source.
-/

/-- Python's `abs` on rationals (kernel-computable form). -/
def pyAbs (q : ℚ) : ℚ := if q < 0 then -q else q

/-- Python's binary `min` on rationals (kernel-computable form). -/
def pyMin (a b : ℚ) : ℚ := if a ≤ b then a else b

/-- Python's binary `max` on rationals (kernel-computable form). -/
def pyMax (a b : ℚ) : ℚ := if b ≤ a then a else b

/-- Floor of a rational as an integer (Euclidean division of numerator by
denominator). -/
def ratFloor (q : ℚ) : ℤ := q.num.ediv q.den

/-- Python's `round` to the nearest integer (half-way cases are immaterial
to the claims). -/
def pyRound (q : ℚ) : ℤ := ratFloor (q + 1 / 2)

lemma pyAbs_eq (q : ℚ) : pyAbs q = |q| := by
  unfold pyAbs
  by_cases h : q < 0
  · rw [if_pos h, abs_of_neg h]
  · rw [if_neg h, abs_of_nonneg (not_lt.mp h)]

lemma pyMin_eq (a b : ℚ) : pyMin a b = min a b := by
  unfold pyMin
  by_cases h : a ≤ b
  · rw [if_pos h, min_eq_left h]
  · rw [if_neg h, min_eq_right (le_of_lt (not_le.mp h))]

lemma pyMax_eq (a b : ℚ) : pyMax a b = max a b := by
  unfold pyMax
  by_cases h : b ≤ a
  · rw [if_pos h, max_eq_left h]
  · rw [if_neg h, max_eq_right (le_of_lt (not_le.mp h))]

lemma pyMin_self (a : ℚ) : pyMin a a = a := by unfold pyMin; rw [if_pos le_rfl]

lemma pyMax_self (a : ℚ) : pyMax a a = a := by unfold pyMax; rw [if_pos le_rfl]

/-- Model of `are_floats_equal` from the source: absolute difference strictly below
the tolerance (default `1e-9`). -/
def are_floats_equal (f1 f2 : ℚ) (tolerance : ℚ := 1 / 1000000000) : Bool :=
  decide (pyAbs (f1 - f2) < tolerance)

/-- Squared planar distance between two rational points (helper for
decidability of the source's square-root comparisons). -/
def sqDist (p1 p2 : ℚ × ℚ) : ℚ :=
  (p1.1 - p2.1) ^ 2 + (p1.2 - p2.2) ^ 2

lemma sqDist_nonneg (p1 p2 : ℚ × ℚ) : 0 ≤ sqDist p1 p2 := by
  unfold sqDist; positivity

/-- Model of `is_point_close` from the source: Euclidean distance (a genuine square
root, not the squared distance) strictly below the tolerance. -/
def is_point_close (point1 point2 : ℚ × ℚ) (tolerance : ℚ := 1 / 1000000) : Prop :=
  Real.sqrt ((sqDist point1 point2 : ℚ) : ℝ) < (tolerance : ℝ)

lemma is_point_close_iff (p1 p2 : ℚ × ℚ) (tol : ℚ) :
    is_point_close p1 p2 tol ↔ 0 < tol ∧ sqDist p1 p2 < tol ^ 2 := by
  unfold is_point_close
  constructor
  · intro h
    have h0 : (0 : ℝ) ≤ Real.sqrt ((sqDist p1 p2 : ℚ) : ℝ) := Real.sqrt_nonneg _
    have htol : (0 : ℝ) < (tol : ℝ) := lt_of_le_of_lt h0 h
    have htolq : 0 < tol := by exact_mod_cast htol
    refine ⟨htolq, ?_⟩
    have h2 := (Real.sqrt_lt' htol).mp h
    exact_mod_cast h2
  · rintro ⟨htol, hlt⟩
    have htolR : (0 : ℝ) < (tol : ℝ) := by exact_mod_cast htol
    refine (Real.sqrt_lt' htolR).mpr ?_
    exact_mod_cast hlt

instance (p1 p2 : ℚ × ℚ) (tol : ℚ) : Decidable (is_point_close p1 p2 tol) :=
  decidable_of_iff _ (is_point_close_iff p1 p2 tol).symm

/-- Python's `round(x, 3)` on ingested coordinates. -/
def round3 (q : ℚ) : ℚ := ((pyRound (q * 1000) : ℤ) : ℚ) / 1000

/-- Python's `round(x, 2)` on rational quantities (areas). -/
def round2 (q : ℚ) : ℚ := ((pyRound (q * 100) : ℤ) : ℚ) / 100

/-- Python's `round(x, 2)` on real quantities (distances, seconds). -/
noncomputable def round2R (x : ℝ) : ℝ := ((round (x * 100) : ℤ) : ℝ) / 100

/-- Model of `calculate_distance` from the source: planar Euclidean distance. -/
noncomputable def calculate_distance (point1 point2 : ℚ × ℚ) : ℝ :=
  Real.sqrt ((sqDist point1 point2 : ℚ) : ℝ)

lemma calculate_distance_lt_iff (a b x y : ℚ × ℚ) :
    calculate_distance a b < calculate_distance x y ↔ sqDist a b < sqDist x y := by
  unfold calculate_distance
  rw [Real.sqrt_lt_sqrt_iff (by exact_mod_cast sqDist_nonneg a b)]
  exact_mod_cast Iff.rfl

instance (a b x y : ℚ × ℚ) : Decidable (calculate_distance a b < calculate_distance x y) :=
  decidable_of_iff _ (calculate_distance_lt_iff a b x y).symm

lemma calculate_distance_le_iff (a b x y : ℚ × ℚ) :
    calculate_distance a b ≤ calculate_distance x y ↔ sqDist a b ≤ sqDist x y := by
  unfold calculate_distance
  rw [Real.sqrt_le_sqrt_iff (by exact_mod_cast sqDist_nonneg x y)]
  exact_mod_cast Iff.rfl

/-! ## Point-in-Polygon Tester (`is_point_in_polygon`) -/

/-- Python's `polygon[::2]` (every other element starting at index 0). -/
def stride2 : List ℚ → List ℚ
  | [] => []
  | [x] => [x]
  | x :: _ :: rest => x :: stride2 rest

/-- Model of `list(zip(polygon[::2], polygon[1::2]))` from the source. -/
def pipPairs (polygon : List ℚ) : List (ℚ × ℚ) :=
  (stride2 polygon).zip (stride2 (polygon.drop 1))

/-- One iteration of the ray-casting loop, acting on the pair
`(inside, xinters)`; `xinters = none` models the local variable being not
yet assigned, and reading it in that state is the `Except.error` outcome. -/
def pipStep (x y : ℚ) (st : Bool × Option ℚ) (edge : (ℚ × ℚ) × (ℚ × ℚ)) :
    Except Unit (Bool × Option ℚ) :=
  let inside := st.1
  let xint := st.2
  let p1 := edge.1
  let p2 := edge.2
  if y > pyMin p1.2 p2.2 ∧ y ≤ pyMax p1.2 p2.2 ∧ x ≤ pyMax p1.1 p2.1 then
    let xint' := if p1.2 ≠ p2.2 then
        some ((y - p1.2) * (p2.1 - p1.1) / (p2.2 - p1.2) + p1.1)
      else xint
    if p1.1 = p2.1 then Except.ok (!inside, xint')
    else
      match xint' with
      | none => Except.error ()
      | some xi => Except.ok (if x ≤ xi then !inside else inside, xint')
  else Except.ok (inside, xint)

/-- The successive `(p1, p2)` edges traversed when `p1` starts at `p` and is
set to the previous `p2` after each iteration (the source's
`p1x, p1y = p2x, p2y`). -/
def chainEdges (p : ℚ × ℚ) : List (ℚ × ℚ) → List ((ℚ × ℚ) × (ℚ × ℚ))
  | [] => []
  | q :: rest => (p, q) :: chainEdges q rest

/-- The `n` edges of the closed ring: consecutive pairs plus the wrap-around
edge from the last vertex back to the first. -/
def ringEdges : List (ℚ × ℚ) → List ((ℚ × ℚ) × (ℚ × ℚ))
  | [] => []
  | p0 :: rest => chainEdges p0 (rest ++ [p0])

/-- Model of `is_point_in_polygon` from the source.  The loop runs `n + 1` times with
`p2 = pairs[i % n]`; an empty coordinate list makes the source's
`polygon[0]` raise, modelled as `Except.error`. -/
def is_point_in_polygon (point : ℚ × ℚ) (polygon : List ℚ) : Except Unit Bool :=
  match pipPairs polygon with
  | [] => Except.error ()
  | p0 :: rest =>
    let pairs := p0 :: rest
    let seq := (List.range (pairs.length + 1)).map (fun i => pairs.getD (i % pairs.length) (0, 0))
    ((chainEdges p0 seq).foldlM (pipStep point.1 point.2) (false, none)).map (·.1)

lemma pipStep_horizontal (x y : ℚ) (inside : Bool) (xint : Option ℚ)
    (p1x p2x yy : ℚ) :
    pipStep x y (inside, xint) ((p1x, yy), (p2x, yy)) = Except.ok (inside, xint) := by
  unfold pipStep
  simp only [pyMin_self, pyMax_self]
  rw [if_neg]
  rintro ⟨h1, h2, -⟩
  exact absurd h2 (not_le.mpr h1)

lemma pipStep_ne_error (x y : ℚ) (st : Bool × Option ℚ) (edge : (ℚ × ℚ) × (ℚ × ℚ)) :
    ∃ st', pipStep x y st edge = Except.ok st' := by
  obtain ⟨inside, xint⟩ := st
  obtain ⟨⟨p1x, p1y⟩, ⟨p2x, p2y⟩⟩ := edge
  by_cases hy : p1y = p2y
  · subst hy
    exact ⟨_, pipStep_horizontal x y inside xint p1x p2x p1y⟩
  · unfold pipStep
    simp only []
    by_cases hg : y > pyMin p1y p2y ∧ y ≤ pyMax p1y p2y ∧ x ≤ pyMax p1x p2x
    · rw [if_pos hg]
      simp only [if_pos (show p1y ≠ p2y from hy)]
      by_cases hx : p1x = p2x
      · rw [if_pos hx]; exact ⟨_, rfl⟩
      · rw [if_neg hx]; exact ⟨_, rfl⟩
    · rw [if_neg hg]; exact ⟨_, rfl⟩

lemma foldlM_pipStep_ok (x y : ℚ) :
    ∀ (l : List ((ℚ × ℚ) × (ℚ × ℚ))) (init : Bool × Option ℚ),
      ∃ st', l.foldlM (pipStep x y) init = Except.ok st'
  | [], init => ⟨init, rfl⟩
  | e :: rest, init => by
    obtain ⟨st1, h1⟩ := pipStep_ne_error x y init e
    obtain ⟨st2, h2⟩ := foldlM_pipStep_ok x y rest st1
    exact ⟨st2, by rw [List.foldlM_cons, h1]; exact h2⟩

lemma map_range_getD (l : List (ℚ × ℚ)) (d : ℚ × ℚ) :
    (List.range l.length).map (fun i => l.getD i d) = l := by
  apply List.ext_getElem
  · simp
  · intro i h1 h2
    simp only [List.getElem_map, List.getElem_range]
    exact List.getD_eq_getElem l d (by simpa using h2)

lemma pip_seq_eq (p0 : ℚ × ℚ) (rest : List (ℚ × ℚ)) :
    (List.range ((p0 :: rest).length + 1)).map
        (fun i => (p0 :: rest).getD (i % (p0 :: rest).length) (0, 0)) =
      (p0 :: rest) ++ [p0] := by
  rw [List.range_succ, List.map_append]
  congr 1
  · have : ∀ i ∈ List.range (p0 :: rest).length,
        (p0 :: rest).getD (i % (p0 :: rest).length) (0, 0) = (p0 :: rest).getD i (0, 0) := by
      intro i hi
      rw [List.mem_range] at hi
      rw [Nat.mod_eq_of_lt hi]
    rw [List.map_congr_left this]
    exact map_range_getD (p0 :: rest) (0, 0)
  · simp [Nat.mod_self]

lemma is_point_in_polygon_eq_ringEdges (point : ℚ × ℚ) (polygon : List ℚ)
    (p0 : ℚ × ℚ) (rest : List (ℚ × ℚ)) (hp : pipPairs polygon = p0 :: rest) :
    is_point_in_polygon point polygon =
      ((ringEdges (pipPairs polygon)).foldlM (pipStep point.1 point.2) (false, none)).map (·.1) := by
  unfold is_point_in_polygon
  rw [hp]
  dsimp only
  rw [pip_seq_eq p0 rest]
  have hch : chainEdges p0 ((p0 :: rest) ++ [p0]) = (p0, p0) :: chainEdges p0 (rest ++ [p0]) := rfl
  have hps : pipStep point.1 point.2 (false, none) (p0, p0) = Except.ok (false, none) :=
    pipStep_horizontal point.1 point.2 false none p0.1 p0.1 p0.2
  rw [hch, List.foldlM_cons, hps]
  rfl

/-! ## Entity model and the Entity Normalizer (`extract_coordinates`) -/

/-- Provider entities, as the source observes them through the host API.
`broken` models an entity whose data extraction raises an exception (the
`except` branch of `extract_coordinates`). -/
inductive Entity where
  | polyline (handle : ℕ) (coordinates : List ℚ) (area perimeterLen : ℚ)
  | cogo (handle : ℕ) (easting northing elevation : ℚ) (number rawDescription : String)
  | text (handle : ℕ) (isM : Bool) (insertion : ℚ × ℚ) (textString : String)
  | unsupported (handle : ℕ) (entityName : String)
  | broken (handle : ℕ)
deriving DecidableEq

def Entity.EntityName : Entity → String
  | .polyline .. => "AcDbPolyline"
  | .cogo .. => "AeccDbCogoPoint"
  | .text _ false .. => "AcDbText"
  | .text _ true .. => "AcDbMText"
  | .unsupported _ n => n
  | .broken _ => "AcDbBrokenEntity"

def Entity.Handle : Entity → ℕ
  | .polyline h .. => h
  | .cogo h .. => h
  | .text h .. => h
  | .unsupported h _ => h
  | .broken h => h

def Entity.Coordinates : Entity → List ℚ
  | .polyline _ c _ _ => c
  | _ => []

def Entity.Area : Entity → ℚ
  | .polyline _ _ a _ => a
  | _ => 0

def Entity.Easting : Entity → ℚ
  | .cogo _ e _ _ _ _ => e
  | _ => 0

def Entity.Northing : Entity → ℚ
  | .cogo _ _ n _ _ _ => n
  | _ => 0

def Entity.Elevation : Entity → ℚ
  | .cogo _ _ _ el _ _ => el
  | _ => 0

def Entity.Number : Entity → String
  | .cogo _ _ _ _ num _ => num
  | _ => ""

def Entity.Insertion : Entity → ℚ × ℚ
  | .text _ _ ins _ => ins
  | _ => (0, 0)

def Entity.TextString : Entity → String
  | .text _ _ _ ts => ts
  | _ => ""

def Entity.isBroken : Entity → Bool
  | .broken _ => true
  | _ => false

/-- Typed data extracted by the normalizer. -/
inductive ExtractInfo where
  | polylineInfo (coordinates : List (ℚ × ℚ))
  | cogoInfo (easting northing elevation : ℚ) (number rawDescription : String)
  | textInfo (insertion : ℚ × ℚ) (textString : String)
deriving DecidableEq

/-- The source's pairing of a flat coordinate list into `(x, y)` vertices. -/
def pairUp : List ℚ → List (ℚ × ℚ)
  | x :: y :: rest => (x, y) :: pairUp rest
  | _ => []

/-- Model of `extract_coordinates` from the source: unrecognized entity types give
`ok none` (a logged warning), an exception during extraction is re-raised
(`error`), and recognized types give rounded typed data. -/
def extract_coordinates : Entity → Except Unit (Option ExtractInfo)
  | .polyline _ coords _ _ => .ok (some (.polylineInfo (pairUp (coords.map round3))))
  | .cogo _ e n el num desc => .ok (some (.cogoInfo (round3 e) (round3 n) (round3 el) num desc))
  | .text _ _ ins ts => .ok (some (.textInfo (round3 ins.1, round3 ins.2) ts))
  | .unsupported _ _ => .ok none
  | .broken _ => .error ()

/-! ## Vertex Resolver (`get_vertex_name`) -/

/-- Substring test (used for the source's `'cogopoint' in name.lower()`). -/
def containsSub (needle hay : String) : Bool :=
  hay.toList.tails.any (fun t => needle.toList.isPrefixOf t)

/-- Membership of an entity name in the source's `cogopoint_names` set:
the name occurs in the selection set and contains `"cogopoint"` when
lower-cased. -/
def cogoNameMatches (allNames : List String) (name : String) : Bool :=
  allNames.any (fun n => n = name && containsSub "cogopoint" n.toLower)

/-- The linear search of `get_vertex_name` (first match wins). -/
def get_vertex_name_loop (allNames : List String) (vertex : ℚ × ℚ) (tol : ℚ) :
    List Entity → String × Option ℚ
  | [] => ("Vertex not found", none)
  | e :: rest =>
    if cogoNameMatches allNames e.EntityName = true ∧
        is_point_close (e.Easting, e.Northing) vertex tol then
      ("V" ++ e.Number, some e.Elevation)
    else
      get_vertex_name_loop allNames vertex tol rest

/-- Model of `get_vertex_name` from the source (the `entity` argument is unused
there as well). -/
def get_vertex_name (entity : Entity) (selection_set : List Entity) (vertex : ℚ × ℚ)
    (tolerance : ℚ := 1 / 1000000) : String × Option ℚ :=
  get_vertex_name_loop (selection_set.map (·.EntityName)) vertex tolerance selection_set

/-! ## Label Associator (`get_center`, `get_text_inside_polyline`) -/

/-- Model of `get_center` from the source: arithmetic mean of the stride-2 x and y
coordinate lists. -/
def get_center (vertices : List ℚ) : ℚ × ℚ :=
  let x_coords := stride2 vertices
  let y_coords := stride2 (vertices.drop 1)
  (x_coords.sum / (x_coords.length : ℚ), y_coords.sum / (y_coords.length : ℚ))

/-- Model of `re.sub(r'\P', '', s)`: strip MText paragraph-break control sequences. -/
def cleanParagraphB (s : String) : String := s.replace "\\P" ""

/-- Model of `re.sub(r'\pxqc;', '', s)`: strip the MText centering control sequence. -/
def cleanPxqc (s : String) : String := s.replace "\\pxqc;" ""

def isTextEntityName (s : String) : Bool := s = "AcDbText" || s = "AcDbMText"

/-- State of the label search: the insertion point of the current nearest
label (`none` models `min_distance = inf`), the cleaned nearest text and
the raw nearest text. -/
def gtipLoop (center : ℚ × ℚ) (vertices : List ℚ) :
    List Entity → Option (ℚ × ℚ) × String × String →
      Except Unit (Option (ℚ × ℚ) × String × String)
  | [], st => .ok st
  | e :: rest, st =>
    if isTextEntityName e.EntityName then
      match is_point_in_polygon e.Insertion vertices with
      | .error u => .error u
      | .ok b =>
        if b then
          let better : Bool :=
            match st.1 with
            | none => true
            | some m => decide (calculate_distance center e.Insertion < calculate_distance center m)
          if better then
            gtipLoop center vertices rest (some e.Insertion, cleanParagraphB e.TextString, e.TextString)
          else
            gtipLoop center vertices rest st
        else gtipLoop center vertices rest st
    else gtipLoop center vertices rest st

/-- Model of `get_text_inside_polyline` from the source.  A non-polyline entity
yields the Python `(None, None)`; otherwise the pair of the cleaned nearest
enclosed text (or the `"No text found"` sentinel) and the raw nearest
text. -/
def get_text_inside_polyline (entity : Entity) (selection_set : List Entity) :
    Except Unit (Option String × Option String) :=
  if entity.EntityName ≠ "AcDbPolyline" then .ok (none, none)
  else do
    let vertices := entity.Coordinates
    let center := get_center vertices
    let st ← gtipLoop center vertices selection_set (none, "", "")
    let nearest_text := st.2.1
    let nearest_unclean := st.2.2
    pure (some (if nearest_text = "" then "No text found" else cleanPxqc nearest_text),
      some nearest_unclean)

/-! ## Adjacency Matcher (inline loop of `generate_text_from_polyline`) -/

/-- The candidate test: the candidate's vertex set contains a vertex
float-equal to the current vertex and one float-equal to the next vertex. -/
def sharesEdgeEndpoints (overts : List (ℚ × ℚ)) (cv nv : ℚ × ℚ) : Bool :=
  (overts.any fun v => are_floats_equal v.1 cv.1 && are_floats_equal v.2 cv.2) &&
  (overts.any fun v => are_floats_equal v.1 nv.1 && are_floats_equal v.2 nv.2)

/-- The adjacency search loop: skip the polygon itself (by handle), extract
each candidate (a raised extraction error propagates), and return the first
polyline candidate sharing both edge endpoints. -/
def find_adjacent (selfHandle : ℕ) (cv nv : ℚ × ℚ) : List Entity → Except Unit (Option Entity)
  | [] => .ok none
  | e :: rest =>
    if e.Handle = selfHandle then find_adjacent selfHandle cv nv rest
    else
      match extract_coordinates e with
      | .error u => .error u
      | .ok none => find_adjacent selfHandle cv nv rest
      | .ok (some (.polylineInfo overts)) =>
        if sharesEdgeEndpoints overts cv nv then .ok (some e)
        else find_adjacent selfHandle cv nv rest
      | .ok (some _) => find_adjacent selfHandle cv nv rest

/-- The neighbour's displayed text: the sentinel when no candidate was
found, otherwise the neighbour's nearest-label text. -/
def adjacentText (selection_set : List Entity) : Option Entity → Except Unit String
  | none => .ok "No confrontante found"
  | some p => (get_text_inside_polyline p selection_set).map (fun r => r.1.getD "None")

/-! ## Edge geometry: distance and azimuth -/

/-- Model of `math.atan2 y x` as the argument of the complex number `x + y*i`. -/
noncomputable def atan2 (y x : ℝ) : ℝ := Complex.arg ⟨x, y⟩

/-- The narrator's azimuth in degrees: `atan2(Δx, Δy)` (axes swapped to get
a grid azimuth), converted to degrees and normalized into `[0, 360)` by
adding 360 when negative. -/
noncomputable def azimuth_deg (cv nv : ℚ × ℚ) : ℝ :=
  let dx : ℝ := ((nv.1 - cv.1 : ℚ) : ℝ)
  let dy : ℝ := ((nv.2 - cv.2 : ℚ) : ℝ)
  let a := atan2 dx dy * 180 / Real.pi
  if a < 0 then a + 360 else a

/-- Python's `int()` truncation toward zero. -/
noncomputable def intOf (x : ℝ) : ℤ := if 0 ≤ x then ⌊x⌋ else -⌊-x⌋

/-! ## Templates (embedded verbatim from the source) and collaborators -/

/-- Slot-value stringification and the number-to-words collaborator;
abstracted because they are external to the narrator's logic. -/
structure Collab where
  showQ : ℚ → String
  showR : ℝ → String
  showZ : ℤ → String
  showElev : Option ℚ → String
  toWords : ℚ → String

/-- Model of `template_initial`: the opening edge sentence, naming the starting
vertex's absolute position. -/
def template_initial (current_vertex_name cx cy celev adjacent_text degs mins secs dist
    next_vertex_name nx ny nelev : String) : String :=
  "Inicia-se a descrição deste perímetro no vértice " ++ current_vertex_name ++
  ", georreferenciado no Sistema Geodésico Brasileiro, DATUM - SIRGAS2000, MC-51°W, de coordenadas N " ++
  cy ++ "m e E " ++ cx ++ "m de altitude " ++ celev ++
  "m; deste segue confrontando com " ++ adjacent_text ++ ", com azimute de " ++
  degs ++ "°" ++ mins ++ "\x27" ++ secs ++ "\x22 por uma distância de " ++ dist ++
  "m até o vértice " ++ next_vertex_name ++ ", de coordenadas N " ++ ny ++ "m e E " ++ nx ++
  "m de altitude " ++ nelev ++ "m;"

/-- Model of `template_other`: the continuation edge sentence (no restated starting
point). -/
def template_other (adjacent_text degs mins secs dist
    next_vertex_name nx ny nelev : String) : String :=
  "Deste segue confrontando com " ++ adjacent_text ++ ", com azimute de " ++
  degs ++ "°" ++ mins ++ "\x27" ++ secs ++ "\x22 por uma distância de " ++ dist ++
  "m até o vértice " ++ next_vertex_name ++ ", de coordenadas N " ++ ny ++ "m e E " ++ nx ++
  "m de altitude " ++ nelev ++ "m;"

/-- Model of `template_final`: the fixed closing statement. -/
def template_final : String :=
  "Todas as coordenadas aqui descritas estão georreferenciadas ao Sistema Geodésico Brasileiro e encontram-se representadas no Sistema UTM, referenciadas ao Meridiano Central nº 51 WGr, tendo como Datum o SIRGAS2000. Todos os azimutes e distâncias, área e perímetro foram calculados no plano de projeção UTM."

/-- Model of `template_header`: note that the template text carries the literal
placeholder `QUADRA “XX”` and has no slot reading `quad_number`, although
the render call binds it. -/
def template_header (lot_number quad_number area area_text : String) : String :=
  lot_number ++ " da QUADRA “XX”, com área de " ++ area ++ "m² (" ++ area_text ++
  "), com a seguinte descrição:"

/-- Model of `template_table`: one tabular row per edge. -/
def template_table (current_vertex_name cx cy celev next_vertex_name nx ny nelev
    dist degs mins secs : String) : String :=
  "Lado " ++ current_vertex_name ++ "->" ++ next_vertex_name ++ ": " ++
  current_vertex_name ++ "(" ++ cx ++ ", " ++ cy ++ ", " ++ celev ++ ") -> " ++
  next_vertex_name ++ "(" ++ nx ++ ", " ++ ny ++ ", " ++ nelev ++ "), Distância: " ++
  dist ++ " m, Azimute: " ++ degs ++ "°" ++ mins ++ "\x27" ++ secs ++ "\x22; "

/-! ## Boundary Narrator (`generate_text_from_polyline`) -/

/-- Whether edge `i` of the ring is degenerate (both endpoint coordinates
float-equal), i.e. skipped by the narration loop. -/
def edgeDegenerate (vertices : List (ℚ × ℚ)) (i : ℕ) : Bool :=
  let current_vertex := vertices.getD i (0, 0)
  let next_vertex := vertices.getD ((i + 1) % vertices.length) (0, 0)
  are_floats_equal current_vertex.1 next_vertex.1 && are_floats_equal current_vertex.2 next_vertex.2

/-- One iteration of the narration loop: resolve both endpoint names, skip
the edge if degenerate, otherwise compute distance/azimuth, find the
neighbour, and render the sentence (opening template exactly when `i = 0`)
and the table row. -/
noncomputable def narrateEdge (C : Collab) (selection_set : List Entity) (entity : Entity)
    (vertices : List (ℚ × ℚ)) (i : ℕ) : Except Unit (Option (String × String)) :=
  let current_vertex := vertices.getD i (0, 0)
  let next_vertex := vertices.getD ((i + 1) % vertices.length) (0, 0)
  let cres := get_vertex_name entity selection_set current_vertex (1 / 1000)
  let nres := get_vertex_name entity selection_set next_vertex (1 / 1000)
  if are_floats_equal current_vertex.1 next_vertex.1 &&
      are_floats_equal current_vertex.2 next_vertex.2 then
    .ok none
  else do
    let dist := round2R (calculate_distance current_vertex next_vertex)
    let az := azimuth_deg current_vertex next_vertex
    let degs : ℤ := intOf az
    let mins : ℤ := intOf ((az - (degs : ℝ)) * 60)
    let secs : ℝ := round2R (((az - (degs : ℝ)) * 60 - (mins : ℝ)) * 60)
    let adj ← find_adjacent entity.Handle current_vertex next_vertex selection_set
    let adjacent_text ← adjacentText selection_set adj
    let secs_str := C.showR secs
    let desc :=
      if i = 0 then
        template_initial cres.1 (C.showQ current_vertex.1) (C.showQ current_vertex.2)
          (C.showElev cres.2) adjacent_text (C.showZ degs) (C.showZ mins) secs_str
          (C.showR dist) nres.1 (C.showQ next_vertex.1) (C.showQ next_vertex.2)
          (C.showElev nres.2)
      else
        template_other adjacent_text (C.showZ degs) (C.showZ mins) secs_str
          (C.showR dist) nres.1 (C.showQ next_vertex.1) (C.showQ next_vertex.2)
          (C.showElev nres.2)
    let tline :=
      template_table cres.1 (C.showQ current_vertex.1) (C.showQ current_vertex.2)
        (C.showElev cres.2) nres.1 (C.showQ next_vertex.1) (C.showQ next_vertex.2)
        (C.showElev nres.2) (C.showR dist) (C.showZ degs) (C.showZ mins) secs_str
    pure (some (desc, tline))

/-- The narration loop over all edge indices; skipped edges contribute
nothing to the collected (sentence, table row) pairs. -/
noncomputable def narrate (C : Collab) (selection_set : List Entity) (entity : Entity)
    (vertices : List (ℚ × ℚ)) : Except Unit (List (String × String)) := do
  let opts ← (List.range vertices.length).mapM (narrateEdge C selection_set entity vertices)
  pure (opts.filterMap id)

/-- Model of `re.search` for a literal marker followed by a non-empty token of
`good` characters; the leftmost match wins, as in the `re` module. -/
def searchTok (marker : List Char) (good : Char → Bool) : List Char → Option (List Char)
  | [] => none
  | c :: rest =>
    if marker.isPrefixOf (c :: rest) then
      let tok := ((c :: rest).drop marker.length).takeWhile good
      if tok.isEmpty then searchTok marker good rest
      else some tok
    else searchTok marker good rest

/-- Model of `re.search(r'Lote nº (\d+)', s)`, returning the captured digit run. -/
def searchLote (s : String) : Option String :=
  (searchTok "Lote nº ".toList Char.isDigit s.toList).map (fun l => String.mk l)

def isWordChar (c : Char) : Bool := c.isAlphanum || c = '_'

/-- Model of `re.search(r'Quadra (\w+)', s)`, returning the captured word token. -/
def searchQuadra (s : String) : Option String :=
  (searchTok "Quadra ".toList isWordChar s.toList).map (fun l => String.mk l)

/-- The emitted document: header, per-edge sentences, per-edge table rows,
closing statement. -/
structure GenOut where
  header : String
  descriptions : List String
  table_lines : List String
  closing : String

/-- Model of `generate_text_from_polyline` from the source (the emitted document is
returned instead of printed; `none` is the source's early `return None` for
entities that do not normalize to a polyline). -/
noncomputable def generate_text_from_polyline (C : Collab) (entity : Entity)
    (selection_set : List Entity) (text_inside text_inside_unclean : String) :
    Except Unit (Option GenOut) := do
  match ← extract_coordinates entity with
  | none => pure none
  | some (.cogoInfo ..) => pure none
  | some (.textInfo ..) => pure none
  | some (.polylineInfo vertices) =>
    let area := round2 entity.Area
    let lot_number := (searchLote text_inside_unclean).getD text_inside
    let quad_number := (searchQuadra text_inside_unclean).getD text_inside
    let area_text := C.toWords area
    let header_text := template_header lot_number quad_number (C.showQ area) area_text
    let prs ← narrate C selection_set entity vertices
    pure (some ⟨header_text, prs.map (·.1), prs.map (·.2), template_final⟩)

/-- Projection used to state facts about the emitted header. -/
def headerOf : Except Unit (Option GenOut) → String
  | .ok (some o) => o.header
  | _ => ""

/-- A concrete collaborator instance for closed evaluations: constant
stringifiers. -/
def Cc : Collab :=
  ⟨fun _ => "Q", fun _ => "R", fun _ => "Z", fun _ => "E", fun _ => "W"⟩

/-! ## Claim theorems -/

/-- C5: In the Point-in-Polygon Tester, an iteration whose edge is
horizontal (`p1y == p2y`) never toggles the inside flag (nor touches
`xinters`); no iteration can fail, because the intersection x-coordinate is
computed exactly under `p1y != p2y` (nonzero divisor) and is therefore
always assigned before the `x <= xinters` read; and for a nonempty vertex
ring the whole test succeeds and its traversal is exactly a fold over the
closed ring's edges, including the wrap-around edge from the last vertex
back to the first. -/
theorem c5_point_in_polygon_edge_policy :
    (∀ x y inside xint p1x p2x yy,
        pipStep x y (inside, xint) ((p1x, yy), (p2x, yy)) = Except.ok (inside, xint)) ∧
    (∀ x y st edge, ∃ st', pipStep x y st edge = Except.ok st') ∧
    (∀ point polygon p0 rest, pipPairs polygon = p0 :: rest →
        (∃ b, is_point_in_polygon point polygon = Except.ok b) ∧
        is_point_in_polygon point polygon =
          ((ringEdges (pipPairs polygon)).foldlM (pipStep point.1 point.2) (false, none)).map
            (·.1)) := by
  refine ⟨pipStep_horizontal, pipStep_ne_error, ?_⟩
  intro point polygon p0 rest hp
  have heq := is_point_in_polygon_eq_ringEdges point polygon p0 rest hp
  refine ⟨?_, heq⟩
  obtain ⟨st', hst'⟩ :=
    foldlM_pipStep_ok point.1 point.2 (ringEdges (pipPairs polygon)) (false, none)
  exact ⟨st'.1, by rw [heq, hst']; rfl⟩

/-- Witness for C5 on the spec's square and interior point. -/
theorem c5_point_in_polygon_edge_policy_witness :
    pipPairs [0, 0, 10, 0, 10, 10, 0, 10] =
      ((0 : ℚ), (0 : ℚ)) :: [(10, 0), (10, 10), (0, 10)] ∧
    (∃ b, is_point_in_polygon ((5 : ℚ), (5 : ℚ)) [0, 0, 10, 0, 10, 10, 0, 10] = Except.ok b) ∧
    is_point_in_polygon ((5 : ℚ), (5 : ℚ)) [0, 0, 10, 0, 10, 10, 0, 10] =
      ((ringEdges (pipPairs [0, 0, 10, 0, 10, 10, 0, 10])).foldlM (pipStep 5 5)
          (false, none)).map (·.1) ∧
    is_point_in_polygon ((5 : ℚ), (5 : ℚ)) [0, 0, 10, 0, 10, 10, 0, 10] = Except.ok true := by
  have hp : pipPairs [0, 0, 10, 0, 10, 10, 0, 10] =
      ((0 : ℚ), (0 : ℚ)) :: [(10, 0), (10, 10), (0, 10)] := by with_unfolding_all rfl
  have h := c5_point_in_polygon_edge_policy.2.2 ((5 : ℚ), (5 : ℚ))
    [0, 0, 10, 0, 10, 10, 0, 10] ((0 : ℚ), (0 : ℚ)) [(10, 0), (10, 10), (0, 10)] hp
  exact ⟨hp, h.1, h.2, by with_unfolding_all rfl⟩

/-- Normalized azimuth of a displacement `(dx, dy)` in degrees (helper
equal by definition to `azimuth_deg` after taking the coordinate deltas). -/
noncomputable def azNorm (dx dy : ℝ) : ℝ :=
  let a := atan2 dx dy * 180 / Real.pi
  if a < 0 then a + 360 else a

lemma azimuth_deg_eq_azNorm (cv nv : ℚ × ℚ) :
    azimuth_deg cv nv = azNorm ((nv.1 - cv.1 : ℚ) : ℝ) ((nv.2 - cv.2 : ℚ) : ℝ) := rfl

noncomputable def normDeg (θ : ℝ) : ℝ :=
  if θ * 180 / Real.pi < 0 then θ * 180 / Real.pi + 360 else θ * 180 / Real.pi

lemma azNorm_eq_normDeg (dx dy : ℝ) : azNorm dx dy = normDeg (Complex.arg ⟨dy, dx⟩) := rfl

lemma normDeg_of_nonneg (θ : ℝ) (h : 0 ≤ θ) : normDeg θ = θ * 180 / Real.pi :=
  if_neg (not_lt.mpr (div_nonneg (mul_nonneg h (by norm_num)) Real.pi_pos.le))

lemma normDeg_of_neg (θ : ℝ) (h : θ < 0) : normDeg θ = θ * 180 / Real.pi + 360 :=
  if_pos (div_neg_of_neg_of_pos (mul_neg_of_neg_of_pos h (by norm_num)) Real.pi_pos)

lemma azNorm_reverse (dx dy : ℝ) (h : ¬(dx = 0 ∧ dy = 0)) :
    azNorm (-dx) (-dy) = azNorm dx dy + 180 ∨ azNorm dx dy = azNorm (-dx) (-dy) + 180 := by
  have hpi : (0 : ℝ) < Real.pi := Real.pi_pos
  have hpine : Real.pi ≠ 0 := ne_of_gt hpi
  have hneg : (⟨-dy, -dx⟩ : ℂ) = -(⟨dy, dx⟩ : ℂ) := by
    apply Complex.ext <;> simp
  rw [azNorm_eq_normDeg, azNorm_eq_normDeg, hneg]
  rcases lt_trichotomy dx 0 with hdx | hdx | hdx
  · -- dx < 0: forward azimuth in (180, 360), reverse in (0, 180)
    right
    have h1 : Complex.arg ⟨dy, dx⟩ < 0 := Complex.arg_neg_iff.mpr hdx
    have h2 : Complex.arg (-(⟨dy, dx⟩ : ℂ)) = Complex.arg ⟨dy, dx⟩ + Real.pi :=
      Complex.arg_neg_eq_arg_add_pi_of_im_neg hdx
    have h3 : (0 : ℝ) ≤ Complex.arg ⟨dy, dx⟩ + Real.pi := by
      have := Complex.neg_pi_lt_arg (⟨dy, dx⟩ : ℂ)
      linarith
    rw [normDeg_of_neg _ h1, h2, normDeg_of_nonneg _ h3]
    field_simp
    ring
  · -- dx = 0: due-north / due-south edges
    have hdy : dy ≠ 0 := fun hy => h ⟨hdx, hy⟩
    subst hdx
    have hz : (⟨dy, 0⟩ : ℂ) = ((dy : ℝ) : ℂ) := rfl
    have hz' : (-(⟨dy, 0⟩ : ℂ)) = (((-dy : ℝ)) : ℂ) := by
      rw [hz]; exact (Complex.ofReal_neg dy).symm
    have h180 : Real.pi * 180 / Real.pi = 180 := by field_simp
    rcases lt_trichotomy dy 0 with hdy' | hdy' | hdy'
    · -- due south: forward 180, reverse 0
      right
      have h1 : Complex.arg ⟨dy, 0⟩ = Real.pi := by
        rw [hz]; exact Complex.arg_ofReal_of_neg hdy'
      have h2 : Complex.arg (-(⟨dy, 0⟩ : ℂ)) = 0 := by
        rw [hz']; exact Complex.arg_ofReal_of_nonneg (by linarith)
      rw [h1, h2, normDeg_of_nonneg _ hpi.le, normDeg_of_nonneg _ le_rfl, h180]
      norm_num
    · exact absurd hdy' hdy
    · -- due north: forward 0, reverse 180
      left
      have h1 : Complex.arg ⟨dy, 0⟩ = 0 := by
        rw [hz]; exact Complex.arg_ofReal_of_nonneg (le_of_lt hdy')
      have h2 : Complex.arg (-(⟨dy, 0⟩ : ℂ)) = Real.pi := by
        rw [hz']; exact Complex.arg_ofReal_of_neg (by linarith)
      rw [h1, h2, normDeg_of_nonneg _ hpi.le, normDeg_of_nonneg _ le_rfl, h180]
      norm_num
  · -- dx > 0: forward azimuth in (0, 180), reverse in (180, 360)
    left
    have h1 : (0 : ℝ) ≤ Complex.arg ⟨dy, dx⟩ := Complex.arg_nonneg_iff.mpr (le_of_lt hdx)
    have h2 : Complex.arg (-(⟨dy, dx⟩ : ℂ)) = Complex.arg ⟨dy, dx⟩ - Real.pi :=
      Complex.arg_neg_eq_arg_sub_pi_of_im_pos hdx
    have h3 : Complex.arg ⟨dy, dx⟩ - Real.pi < 0 := by
      have := Complex.arg_le_pi (⟨dy, dx⟩ : ℂ)
      rcases lt_or_eq_of_le this with hlt | heqpi
      · linarith
      · exfalso
        have him : (⟨dy, dx⟩ : ℂ).im = 0 := (Complex.arg_eq_pi_iff.mp heqpi).2
        simp only [] at him
        exact absurd him (ne_of_gt hdx)
    rw [normDeg_of_nonneg _ h1, h2, normDeg_of_neg _ h3]
    field_simp
    ring

/-- C7: For distinct points `A` and `B`, the narrator's edge distance is
symmetric, and the normalized azimuths of `(A, B)` and `(B, A)` differ by
exactly 180 degrees modulo 360 (each lies in `[0, 360)`, and one is exactly
the other plus 180). -/
theorem c7_reverse_edge (A B : ℚ × ℚ) (h : A ≠ B) :
    calculate_distance A B = calculate_distance B A ∧
    (azimuth_deg B A = azimuth_deg A B + 180 ∨ azimuth_deg A B = azimuth_deg B A + 180) := by
  constructor
  · unfold calculate_distance
    have hsym : sqDist A B = sqDist B A := by unfold sqDist; ring
    rw [hsym]
  · have hx : ((A.1 - B.1 : ℚ) : ℝ) = -((B.1 - A.1 : ℚ) : ℝ) := by push_cast; ring
    have hy : ((A.2 - B.2 : ℚ) : ℝ) = -((B.2 - A.2 : ℚ) : ℝ) := by push_cast; ring
    rw [azimuth_deg_eq_azNorm A B, azimuth_deg_eq_azNorm B A, hx, hy]
    apply azNorm_reverse
    rintro ⟨hdx, hdy⟩
    apply h
    have hdx' : B.1 - A.1 = 0 := by exact_mod_cast hdx
    have hdy' : B.2 - A.2 = 0 := by exact_mod_cast hdy
    have h1 : A.1 = B.1 := by linarith
    have h2 : A.2 = B.2 := by linarith
    exact Prod.ext h1 h2

/-- Witness for C7 on the due-north edge `(0,0) -> (0,10)`. -/
theorem c7_reverse_edge_witness :
    ((0 : ℚ), (0 : ℚ)) ≠ ((0 : ℚ), (10 : ℚ)) ∧
    (calculate_distance ((0 : ℚ), (0 : ℚ)) ((0 : ℚ), (10 : ℚ)) =
        calculate_distance ((0 : ℚ), (10 : ℚ)) ((0 : ℚ), (0 : ℚ)) ∧
      (azimuth_deg ((0 : ℚ), (10 : ℚ)) ((0 : ℚ), (0 : ℚ)) =
          azimuth_deg ((0 : ℚ), (0 : ℚ)) ((0 : ℚ), (10 : ℚ)) + 180 ∨
        azimuth_deg ((0 : ℚ), (0 : ℚ)) ((0 : ℚ), (10 : ℚ)) =
          azimuth_deg ((0 : ℚ), (10 : ℚ)) ((0 : ℚ), (0 : ℚ)) + 180)) :=
  ⟨by with_unfolding_all decide,
   c7_reverse_edge ((0 : ℚ), (0 : ℚ)) ((0 : ℚ), (10 : ℚ)) (by with_unfolding_all decide)⟩

lemma get_vertex_name_loop_ne_sentinel (allNames : List String) (v : ℚ × ℚ) (tol : ℚ) :
    ∀ l : List Entity,
      get_vertex_name_loop allNames v tol l ≠ ("Vertex not found", none) ↔
        ∃ e ∈ l, cogoNameMatches allNames e.EntityName = true ∧
          is_point_close (e.Easting, e.Northing) v tol
  | [] => by simp [get_vertex_name_loop]
  | e :: rest => by
    unfold get_vertex_name_loop
    by_cases hc : cogoNameMatches allNames e.EntityName = true ∧
        is_point_close (e.Easting, e.Northing) v tol
    · rw [if_pos hc]
      constructor
      · intro _
        exact ⟨e, List.mem_cons_self e rest, hc.1, hc.2⟩
      · intro _ heq
        exact Option.noConfusion (congrArg Prod.snd heq)
    · rw [if_neg hc]
      rw [get_vertex_name_loop_ne_sentinel allNames v tol rest]
      constructor
      · rintro ⟨e', he', h1, h2⟩
        exact ⟨e', List.mem_cons_of_mem e he', h1, h2⟩
      · rintro ⟨e', he', h1, h2⟩
        rcases List.mem_cons.mp he' with rfl | hmem
        · exact absurd ⟨h1, h2⟩ hc
        · exact ⟨e', hmem, h1, h2⟩

/-- C3 counterexample: with a survey point whose `number` field is the
string `"V1"`, resolution at tolerance `0.001` of the vertex
`(10.0003, 20.0003)` succeeds but returns the name `"VV1"` (the source
prepends `"V"` to the stored number), not `"V1"` as the claim states. -/
theorem c3_counterexample :
    get_vertex_name (Entity.broken 9) [Entity.cogo 2 10 20 5 "V1" ""]
        (100003 / 10000, 200003 / 10000) (1 / 1000) = ("VV1", some 5) ∧
    ("VV1", some (5 : ℚ)) ≠ ("V1", some (5 : ℚ)) :=
  ⟨by with_unfolding_all rfl, by decide⟩

/-- C3 (amended): the Vertex Resolver succeeds exactly when some survey
point's `(easting, northing)` lies within Euclidean distance (a genuine
square root, not squared distance) strictly less than the tolerance of the
query vertex; the returned name is `"V"` prepended to the stored point
number, so for a survey point with number `"1"` at `(10, 20)` and query
vertex `(10.0003, 20.0003)`, tolerance `0.001` yields `("V1", elevation)`
while tolerance `0.0001` yields the not-found sentinel. -/
theorem c3_vertex_resolver :
    (∀ entity ss (v : ℚ × ℚ) (tol : ℚ),
      get_vertex_name entity ss v tol ≠ ("Vertex not found", none) ↔
        ∃ e ∈ ss, cogoNameMatches (ss.map (·.EntityName)) e.EntityName = true ∧
          is_point_close (e.Easting, e.Northing) v tol) ∧
    get_vertex_name (Entity.broken 9) [Entity.cogo 2 10 20 5 "1" ""]
        (100003 / 10000, 200003 / 10000) (1 / 1000) = ("V1", some 5) ∧
    get_vertex_name (Entity.broken 9) [Entity.cogo 2 10 20 5 "1" ""]
        (100003 / 10000, 200003 / 10000) (1 / 10000) = ("Vertex not found", none) := by
  refine ⟨?_, by with_unfolding_all rfl, by with_unfolding_all rfl⟩
  intro entity ss v tol
  unfold get_vertex_name
  exact get_vertex_name_loop_ne_sentinel (ss.map (·.EntityName)) v tol ss

/-- Witness for C3: the resolver characterization instantiated at the
concrete survey point and query vertex. -/
theorem c3_vertex_resolver_witness :
    get_vertex_name (Entity.broken 9) [Entity.cogo 2 10 20 5 "1" ""]
        (100003 / 10000, 200003 / 10000) (1 / 1000) ≠ ("Vertex not found", none) ↔
      ∃ e ∈ [Entity.cogo 2 10 20 5 "1" ""],
        cogoNameMatches ([Entity.cogo 2 10 20 5 "1" ""].map (·.EntityName)) e.EntityName = true ∧
          is_point_close (e.Easting, e.Northing) (100003 / 10000, 200003 / 10000) (1 / 1000) :=
  c3_vertex_resolver.1 (Entity.broken 9) [Entity.cogo 2 10 20 5 "1" ""]
    (100003 / 10000, 200003 / 10000) (1 / 1000)

/-- A candidate qualifies as neighbour for edge `(cv, nv)`: distinct handle,
normalizes to a polyline, and shares both edge endpoints. -/
def adjQualifies (selfHandle : ℕ) (cv nv : ℚ × ℚ) (e : Entity) : Bool :=
  decide (¬ e.Handle = selfHandle) &&
    (match extract_coordinates e with
     | .ok (some (.polylineInfo overts)) => sharesEdgeEndpoints overts cv nv
     | _ => false)

lemma extract_ok_of_not_broken (e : Entity) (h : e.isBroken = false) :
    ∃ r, extract_coordinates e = Except.ok r := by
  cases e with
  | polyline h c a l => exact ⟨_, rfl⟩
  | cogo h e n el num d => exact ⟨_, rfl⟩
  | text h m i t => exact ⟨_, rfl⟩
  | unsupported h n => exact ⟨_, rfl⟩
  | broken hh => simp [Entity.isBroken] at h

lemma find_adjacent_cons_self (selfHandle : ℕ) (cv nv : ℚ × ℚ) (e : Entity)
    (rest : List Entity) (hH : e.Handle = selfHandle) :
    find_adjacent selfHandle cv nv (e :: rest) = find_adjacent selfHandle cv nv rest := by
  conv_lhs => unfold find_adjacent
  rw [if_pos hH]

lemma find_adjacent_cons_qual (selfHandle : ℕ) (cv nv : ℚ × ℚ) (e : Entity)
    (rest : List Entity) (overts : List (ℚ × ℚ)) (hH : ¬ e.Handle = selfHandle)
    (hext : extract_coordinates e = Except.ok (some (.polylineInfo overts)))
    (hsh : sharesEdgeEndpoints overts cv nv = true) :
    find_adjacent selfHandle cv nv (e :: rest) = Except.ok (some e) := by
  conv_lhs => unfold find_adjacent
  rw [if_neg hH, hext]
  dsimp only
  rw [if_pos hsh]

lemma find_adjacent_cons_skip (selfHandle : ℕ) (cv nv : ℚ × ℚ) (e : Entity)
    (rest : List Entity) (hH : ¬ e.Handle = selfHandle) (hnb : e.isBroken = false)
    (hq : adjQualifies selfHandle cv nv e = false) :
    find_adjacent selfHandle cv nv (e :: rest) = find_adjacent selfHandle cv nv rest := by
  obtain ⟨r, hext⟩ := extract_ok_of_not_broken e hnb
  unfold adjQualifies at hq
  rw [hext] at hq
  rw [decide_eq_true hH, Bool.true_and] at hq
  conv_lhs => unfold find_adjacent
  rw [if_neg hH, hext]
  cases r with
  | none => rfl
  | some info =>
    cases info with
    | polylineInfo overts =>
      have hq' : sharesEdgeEndpoints overts cv nv = false := hq
      dsimp only
      rw [if_neg (by simp [hq'])]
    | cogoInfo pe pn pel pnum pd => rfl
    | textInfo pi pt => rfl

lemma adjQualifies_true_elim (selfHandle : ℕ) (cv nv : ℚ × ℚ) (e : Entity)
    (hq : adjQualifies selfHandle cv nv e = true) :
    ¬ e.Handle = selfHandle ∧
      ∃ overts, extract_coordinates e = Except.ok (some (.polylineInfo overts)) ∧
        sharesEdgeEndpoints overts cv nv = true := by
  unfold adjQualifies at hq
  rw [Bool.and_eq_true] at hq
  obtain ⟨h1, h2⟩ := hq
  refine ⟨of_decide_eq_true h1, ?_⟩
  rcases hext : extract_coordinates e with u | r
  · rw [hext] at h2; exact absurd h2 (by simp)
  · rw [hext] at h2
    match r, h2 with
    | some (.polylineInfo overts), h2 => exact ⟨overts, rfl, h2⟩

lemma find_adjacent_cases (selfHandle : ℕ) (cv nv : ℚ × ℚ) :
    ∀ ss : List Entity, (∀ e ∈ ss, e.isBroken = false) →
      (find_adjacent selfHandle cv nv ss = Except.ok none ∧
        ∀ e ∈ ss, adjQualifies selfHandle cv nv e = false) ∨
      (∃ c pre post, ss = pre ++ c :: post ∧
        find_adjacent selfHandle cv nv ss = Except.ok (some c) ∧
        adjQualifies selfHandle cv nv c = true ∧
        ∀ e ∈ pre, adjQualifies selfHandle cv nv e = false)
  | [], _ => Or.inl ⟨rfl, by simp⟩
  | e :: rest, hclean => by
    have hcleanr : ∀ x ∈ rest, x.isBroken = false :=
      fun x hx => hclean x (List.mem_cons_of_mem e hx)
    by_cases hq : adjQualifies selfHandle cv nv e = true
    · obtain ⟨hH, overts, hext, hsh⟩ := adjQualifies_true_elim selfHandle cv nv e hq
      right
      exact ⟨e, [], rest, rfl,
        find_adjacent_cons_qual selfHandle cv nv e rest overts hH hext hsh, hq, by simp⟩
    · have hqf : adjQualifies selfHandle cv nv e = false := by
        cases hb : adjQualifies selfHandle cv nv e
        · rfl
        · exact absurd hb hq
      have hskip : find_adjacent selfHandle cv nv (e :: rest) =
          find_adjacent selfHandle cv nv rest := by
        by_cases hH : e.Handle = selfHandle
        · exact find_adjacent_cons_self selfHandle cv nv e rest hH
        · exact find_adjacent_cons_skip selfHandle cv nv e rest hH
            (hclean e (List.mem_cons_self e rest)) hqf
      rcases find_adjacent_cases selfHandle cv nv rest hcleanr with
        ⟨hf, hall⟩ | ⟨c, pre, post, heq, hf, hqc, hpre⟩
      · left
        refine ⟨by rw [hskip]; exact hf, ?_⟩
        intro x hx
        rcases List.mem_cons.mp hx with rfl | hmem
        · exact hqf
        · exact hall x hmem
      · right
        refine ⟨c, e :: pre, post, by simp [heq], by rw [hskip]; exact hf, hqc, ?_⟩
        intro x hx
        rcases List.mem_cons.mp hx with rfl | hmem
        · exact hqf
        · exact hpre x hmem

/-- C6: For an edge `(cv, nv)` the Adjacency Matcher, over any
selection set free of extraction failures, either reports no neighbour and
then no candidate qualifies (distinct handle, polyline, vertex set contains
a match for each endpoint within float-equality tolerance), or reports
exactly the first qualifying candidate in iteration order; concretely, a
polygon listing the shared edge reversed is detected, a polygon sharing only
one endpoint is not, and with no candidate the sentinel
`"No confrontante found"` is used. -/
theorem c6_adjacency_matcher :
    (∀ selfHandle (cv nv : ℚ × ℚ) (ss : List Entity),
      (ss.all fun e => !e.isBroken) = true →
      (find_adjacent selfHandle cv nv ss = Except.ok none ∧
        ∀ e ∈ ss, adjQualifies selfHandle cv nv e = false) ∨
      (∃ c pre post, ss = pre ++ c :: post ∧
        find_adjacent selfHandle cv nv ss = Except.ok (some c) ∧
        adjQualifies selfHandle cv nv c = true ∧
        ∀ e ∈ pre, adjQualifies selfHandle cv nv e = false)) ∧
    find_adjacent 1 (0, 0) (0, 10)
        [Entity.polyline 1 [0, 0, 0, 10, 5, 5] 0 0, Entity.polyline 2 [0, 10, 0, 0, -5, 5] 0 0] =
      Except.ok (some (Entity.polyline 2 [0, 10, 0, 0, -5, 5] 0 0)) ∧
    find_adjacent 1 (0, 0) (0, 10)
        [Entity.polyline 1 [0, 0, 0, 10, 5, 5] 0 0, Entity.polyline 3 [0, 0, 7, 7, 9, 9] 0 0] =
      Except.ok none ∧
    (∀ ss, adjacentText ss none = Except.ok "No confrontante found") := by
  refine ⟨?_, by with_unfolding_all rfl, by with_unfolding_all rfl, fun ss => rfl⟩
  intro selfHandle cv nv ss hclean
  apply find_adjacent_cases
  intro e he
  have := (List.all_eq_true.mp hclean) e he
  simpa using this

/-- Witness for C6: the characterization instantiated on the concrete
reversed-edge scenario. -/
theorem c6_adjacency_matcher_witness :
    (([Entity.polyline 1 [0, 0, 0, 10, 5, 5] 0 0,
        Entity.polyline 2 [0, 10, 0, 0, -5, 5] 0 0].all fun e => !e.isBroken) = true) ∧
    ((find_adjacent 1 (0, 0) (0, 10)
          [Entity.polyline 1 [0, 0, 0, 10, 5, 5] 0 0,
            Entity.polyline 2 [0, 10, 0, 0, -5, 5] 0 0] = Except.ok none ∧
        ∀ e ∈ [Entity.polyline 1 [0, 0, 0, 10, 5, 5] 0 0,
            Entity.polyline 2 [0, 10, 0, 0, -5, 5] 0 0],
          adjQualifies 1 (0, 0) (0, 10) e = false) ∨
      (∃ c pre post,
        [Entity.polyline 1 [0, 0, 0, 10, 5, 5] 0 0,
            Entity.polyline 2 [0, 10, 0, 0, -5, 5] 0 0] = pre ++ c :: post ∧
        find_adjacent 1 (0, 0) (0, 10)
            [Entity.polyline 1 [0, 0, 0, 10, 5, 5] 0 0,
              Entity.polyline 2 [0, 10, 0, 0, -5, 5] 0 0] = Except.ok (some c) ∧
        adjQualifies 1 (0, 0) (0, 10) c = true ∧
        ∀ e ∈ pre, adjQualifies 1 (0, 0) (0, 10) e = false)) :=
  ⟨by with_unfolding_all rfl,
   c6_adjacency_matcher.1 1 (0, 0) (0, 10)
     [Entity.polyline 1 [0, 0, 0, 10, 5, 5] 0 0, Entity.polyline 2 [0, 10, 0, 0, -5, 5] 0 0]
     (by with_unfolding_all rfl)⟩

/-- C9: Error propagation policy: an unrecognized entity type is
excluded without aborting (`ok none`, only a logged warning); an exception
raised during extraction is re-raised (`error`) and, when such an entity is
scanned by the adjacency search, the error propagates and aborts the run;
a vertex-resolution miss yields the `("Vertex not found", None)` sentinel
and processing continues; an adjacency miss yields the
`"No confrontante found"` sentinel and processing continues. -/
theorem c9_error_propagation :
    (∀ h nm, extract_coordinates (Entity.unsupported h nm) = Except.ok none) ∧
    (∀ h, extract_coordinates (Entity.broken h) = Except.error ()) ∧
    (∀ entity ss (v : ℚ × ℚ) (tol : ℚ),
      (ss.all fun e => !(cogoNameMatches (ss.map (·.EntityName)) e.EntityName &&
          decide (is_point_close (e.Easting, e.Northing) v tol))) = true →
      get_vertex_name entity ss v tol = ("Vertex not found", none)) ∧
    (∀ ss, adjacentText ss none = Except.ok "No confrontante found") ∧
    (∀ selfHandle (cv nv : ℚ × ℚ) h rest, ¬ h = selfHandle →
      find_adjacent selfHandle cv nv (Entity.broken h :: rest) = Except.error ()) := by
  refine ⟨fun h nm => rfl, fun h => rfl, ?_, fun ss => rfl, ?_⟩
  · intro entity ss v tol hall
    by_contra hne
    rw [show get_vertex_name entity ss v tol =
        get_vertex_name_loop (ss.map (·.EntityName)) v tol ss from rfl] at hne
    obtain ⟨e, he, h1, h2⟩ := (get_vertex_name_loop_ne_sentinel
      (ss.map (·.EntityName)) v tol ss).mp hne
    have := List.all_eq_true.mp hall e he
    rw [h1, decide_eq_true h2] at this
    simp at this
  · intro selfHandle cv nv h rest hne
    conv_lhs => unfold find_adjacent
    rw [if_neg (by simpa [Entity.Handle] using hne)]
    rfl

/-- Witness for C9: each branch of the policy at a concrete input. -/
theorem c9_error_propagation_witness :
    extract_coordinates (Entity.unsupported 1 "AcDbHatch") = Except.ok none ∧
    extract_coordinates (Entity.broken 2) = Except.error () ∧
    ((([] : List Entity).all fun e => !(cogoNameMatches (([] : List Entity).map (·.EntityName))
        e.EntityName && decide (is_point_close (e.Easting, e.Northing) (0, 0) (1 / 1000)))) = true ∧
      get_vertex_name (Entity.broken 9) [] (0, 0) (1 / 1000) = ("Vertex not found", none)) ∧
    adjacentText [] none = Except.ok "No confrontante found" ∧
    (¬ (2 : ℕ) = 1) ∧
    find_adjacent 1 (0, 0) (0, 10) [Entity.broken 2] = Except.error () :=
  ⟨c9_error_propagation.1 1 "AcDbHatch",
   c9_error_propagation.2.1 2,
   ⟨by with_unfolding_all rfl,
    c9_error_propagation.2.2.1 (Entity.broken 9) [] (0, 0) (1 / 1000)
      (by with_unfolding_all rfl)⟩,
   c9_error_propagation.2.2.2.1 [],
   by decide,
   c9_error_propagation.2.2.2.2 1 (0, 0) (0, 10) 2 [] (by decide)⟩

/-- C10: Applying the Label Associator to an entity that is not a
boundary polygon returns the Python pair `(None, None)` — distinct from the
documented `("No text found", "")` no-enclosed-label outcome. -/
theorem c10_label_associator_non_polyline :
    (∀ (e : Entity) (ss : List Entity), e.EntityName ≠ "AcDbPolyline" →
      get_text_inside_polyline e ss = Except.ok (none, none)) ∧
    ((none, none) : Option String × Option String) ≠ (some "No text found", some "") := by
  refine ⟨?_, by decide⟩
  intro e ss h
  unfold get_text_inside_polyline
  rw [if_pos h]

/-- Witness for C10: a survey-point entity is not a polyline and yields
`(none, none)`. -/
theorem c10_label_associator_non_polyline_witness :
    (Entity.cogo 1 0 0 0 "" "").EntityName ≠ "AcDbPolyline" ∧
    get_text_inside_polyline (Entity.cogo 1 0 0 0 "" "") [] = Except.ok (none, none) :=
  ⟨by decide, c10_label_associator_non_polyline.1 (Entity.cogo 1 0 0 0 "" "") []
    (by decide)⟩

lemma pairUp_length : ∀ l : List ℚ, (pairUp l).length = l.length / 2
  | [] => rfl
  | [x] => by simp [pairUp]
  | x :: y :: rest => by
    have ih := pairUp_length rest
    simp only [pairUp, List.length_cons, ih]
    omega

lemma narrateEdge_degenerate (C : Collab) (ss : List Entity) (entity : Entity)
    (vs : List (ℚ × ℚ)) (i : ℕ) (h : edgeDegenerate vs i = true) :
    narrateEdge C ss entity vs i = Except.ok none := by
  have h' : (are_floats_equal (vs.getD i (0, 0)).1 (vs.getD ((i + 1) % vs.length) (0, 0)).1 &&
      are_floats_equal (vs.getD i (0, 0)).2 (vs.getD ((i + 1) % vs.length) (0, 0)).2) = true := h
  unfold narrateEdge
  simp only [h']
  rfl

lemma narrateEdge_nondegenerate (C : Collab) (ss : List Entity) (entity : Entity)
    (vs : List (ℚ × ℚ)) (i : ℕ) (h : edgeDegenerate vs i = false) :
    narrateEdge C ss entity vs i = Except.error () ∨
      ∃ pr, narrateEdge C ss entity vs i = Except.ok (some pr) := by
  have h' : (are_floats_equal (vs.getD i (0, 0)).1 (vs.getD ((i + 1) % vs.length) (0, 0)).1 &&
      are_floats_equal (vs.getD i (0, 0)).2 (vs.getD ((i + 1) % vs.length) (0, 0)).2) = false := h
  unfold narrateEdge
  simp only [h', Bool.false_eq_true, if_false]
  cases hadj : find_adjacent entity.Handle (vs.getD i (0, 0))
      (vs.getD ((i + 1) % vs.length) (0, 0)) ss with
  | error u => left; rfl
  | ok adj =>
    rw [show ∀ (f : Option Entity → Except Unit (Option (String × String))),
        (Except.ok adj >>= f) = f adj from fun f => rfl]
    cases hat : adjacentText ss adj with
    | error u => left; rfl
    | ok t => right; exact ⟨_, rfl⟩

lemma narrate_loop_count (C : Collab) (ss : List Entity) (entity : Entity)
    (vs : List (ℚ × ℚ)) :
    ∀ (idxs : List ℕ) (opts : List (Option (String × String))),
      idxs.mapM (narrateEdge C ss entity vs) = Except.ok opts →
      (opts.filterMap id).length = (idxs.filter (fun i => !edgeDegenerate vs i)).length
  | [], opts, h => by
    rw [List.mapM_nil] at h
    cases h
    rfl
  | i :: rest, opts, h => by
    rw [List.mapM_cons] at h
    cases hi : narrateEdge C ss entity vs i with
    | error u => rw [hi] at h; exact Except.noConfusion h
    | ok o =>
      rw [hi] at h
      have h' : (rest.mapM (narrateEdge C ss entity vs)) >>=
          (fun xs => pure (o :: xs)) = Except.ok opts := h
      cases hrest : rest.mapM (narrateEdge C ss entity vs) with
      | error u => rw [hrest] at h'; exact Except.noConfusion h'
      | ok xs =>
        rw [hrest] at h'
        have hopts : opts = o :: xs := by
          have : (Except.ok (o :: xs) : Except Unit _) = Except.ok opts := h'
          cases this
          rfl
        subst hopts
        have ih := narrate_loop_count C ss entity vs rest xs hrest
        cases hdeg : edgeDegenerate vs i with
        | true =>
          have ho : o = none := by
            have := narrateEdge_degenerate C ss entity vs i hdeg
            rw [hi] at this
            cases this
            rfl
          subst ho
          simpa [List.filter_cons, hdeg] using ih
        | false =>
          obtain ⟨pr, hpr⟩ : ∃ pr, o = some pr := by
            rcases narrateEdge_nondegenerate C ss entity vs i hdeg with herr | ⟨pr, hpr⟩
            · rw [hi] at herr; exact Except.noConfusion herr
            · rw [hi] at hpr
              cases hpr
              exact ⟨pr, rfl⟩
          subst hpr
          simpa [List.filter_cons, hdeg] using ih

/-- C4: Every degenerate (float-equal endpoints) edge is skipped by the
narration loop — it contributes neither a narrative sentence nor a table
row — so the number of (sentence, row) pairs equals the number of
non-degenerate edges of the closed ring; and the stored ring keeps its
degenerate vertices: extraction pairs up every coordinate pair without
removing duplicates. -/
theorem c4_degenerate_edges_skipped :
    (∀ C ss entity vs prs, narrate C ss entity vs = Except.ok prs →
      prs.length = ((List.range vs.length).filter (fun i => !edgeDegenerate vs i)).length) ∧
    (∀ coords : List ℚ, (pairUp coords).length = coords.length / 2) := by
  constructor
  · intro C ss entity vs prs h
    unfold narrate at h
    cases hm : (List.range vs.length).mapM (narrateEdge C ss entity vs) with
    | error u => rw [hm] at h; exact Except.noConfusion h
    | ok opts =>
      rw [hm] at h
      have hprs : prs = opts.filterMap id := by
        have : (Except.ok (opts.filterMap id) : Except Unit _) = Except.ok prs := h
        cases this
        rfl
      subst hprs
      exact narrate_loop_count C ss entity vs (List.range vs.length) opts hm
  · exact pairUp_length

/-- Witness for C4: a triangle listed with a duplicated first vertex yields
exactly two narrated (sentence, row) pairs — one per non-degenerate edge. -/
theorem c4_degenerate_edges_skipped_witness :
    narrate Cc [] (Entity.polyline 1 [] 0 0) [(0, 0), (0, 0), (10, 0)] = Except.ok
      [(template_other "No confrontante found" "Z" "Z" "R" "R" "Vertex not found" "Q" "Q" "E",
        template_table "Vertex not found" "Q" "Q" "E" "Vertex not found" "Q" "Q" "E" "R" "Z" "Z" "R"),
       (template_other "No confrontante found" "Z" "Z" "R" "R" "Vertex not found" "Q" "Q" "E",
        template_table "Vertex not found" "Q" "Q" "E" "Vertex not found" "Q" "Q" "E" "R" "Z" "Z" "R")] ∧
    ([(template_other "No confrontante found" "Z" "Z" "R" "R" "Vertex not found" "Q" "Q" "E",
        template_table "Vertex not found" "Q" "Q" "E" "Vertex not found" "Q" "Q" "E" "R" "Z" "Z" "R"),
      (template_other "No confrontante found" "Z" "Z" "R" "R" "Vertex not found" "Q" "Q" "E",
        template_table "Vertex not found" "Q" "Q" "E" "Vertex not found" "Q" "Q" "E" "R" "Z" "Z" "R")].length =
      ((List.range ([((0 : ℚ), (0 : ℚ)), (0, 0), (10, 0)] : List (ℚ × ℚ)).length).filter
        (fun i => !edgeDegenerate [(0, 0), (0, 0), (10, 0)] i)).length) := by
  have h : narrate Cc [] (Entity.polyline 1 [] 0 0) [(0, 0), (0, 0), (10, 0)] = Except.ok
      [(template_other "No confrontante found" "Z" "Z" "R" "R" "Vertex not found" "Q" "Q" "E",
        template_table "Vertex not found" "Q" "Q" "E" "Vertex not found" "Q" "Q" "E" "R" "Z" "Z" "R"),
       (template_other "No confrontante found" "Z" "Z" "R" "R" "Vertex not found" "Q" "Q" "E",
        template_table "Vertex not found" "Q" "Q" "E" "Vertex not found" "Q" "Q" "E" "R" "Z" "Z" "R")] := by
    with_unfolding_all rfl
  exact ⟨h, c4_degenerate_edges_skipped.1 Cc [] (Entity.polyline 1 [] 0 0)
    [(0, 0), (0, 0), (10, 0)] _ h⟩

lemma append_left_assoc_exists (p a b : String) (h : ∃ s, a = p ++ s) :
    ∃ s, a ++ b = p ++ s := by
  obtain ⟨s, rfl⟩ := h
  exact ⟨s ++ b, by rw [String.append_assoc]⟩

lemma template_initial_opening (x1 x2 x3 x4 x5 x6 x7 x8 x9 x10 x11 x12 x13 : String) :
    ∃ s, template_initial x1 x2 x3 x4 x5 x6 x7 x8 x9 x10 x11 x12 x13 =
      "Inicia-se a descrição deste perímetro no vértice " ++ s :=
  ⟨x1 ++ (", georreferenciado no Sistema Geodésico Brasileiro, DATUM - SIRGAS2000, MC-51°W, de coordenadas N " ++ (x3 ++ ("m e E " ++ (x2 ++ ("m de altitude " ++ (x4 ++ ("m; deste segue confrontando com " ++ (x5 ++ (", com azimute de " ++ (x6 ++ ("°" ++ (x7 ++ ("\x27" ++ (x8 ++ ("\x22 por uma distância de " ++ (x9 ++ ("m até o vértice " ++ (x10 ++ (", de coordenadas N " ++ (x12 ++ ("m e E " ++ (x11 ++ ("m de altitude " ++ (x13 ++ "m;")))))))))))))))))))))))),
    by simp only [template_initial, String.append_assoc]⟩

lemma template_other_continuation (x1 x2 x3 x4 x5 x6 x7 x8 x9 : String) :
    ∃ s, template_other x1 x2 x3 x4 x5 x6 x7 x8 x9 =
      "Deste segue confrontando com " ++ s :=
  ⟨x1 ++ (", com azimute de " ++ (x2 ++ ("°" ++ (x3 ++ ("\x27" ++ (x4 ++ ("\x22 por uma distância de " ++ (x5 ++ ("m até o vértice " ++ (x6 ++ (", de coordenadas N " ++ (x8 ++ ("m e E " ++ (x7 ++ ("m de altitude " ++ (x9 ++ "m;")))))))))))))))),
    by simp only [template_other, String.append_assoc]⟩

/-- C2 counterexample: on a ring whose edge 0 is degenerate, the first
narrated edge is NOT rendered with the opening template: the narration of
`[(0,0), (0,0), (10,0)]` renders its first (non-skipped) edge with the
continuation template, which differs from the opening template applied to
that edge's slot values. -/
theorem c2_counterexample :
    narrate Cc [] (Entity.polyline 1 [] 0 0) [(0, 0), (0, 0), (10, 0)] = Except.ok
      [(template_other "No confrontante found" "Z" "Z" "R" "R" "Vertex not found" "Q" "Q" "E",
        template_table "Vertex not found" "Q" "Q" "E" "Vertex not found" "Q" "Q" "E" "R" "Z" "Z" "R"),
       (template_other "No confrontante found" "Z" "Z" "R" "R" "Vertex not found" "Q" "Q" "E",
        template_table "Vertex not found" "Q" "Q" "E" "Vertex not found" "Q" "Q" "E" "R" "Z" "Z" "R")] ∧
    template_other "No confrontante found" "Z" "Z" "R" "R" "Vertex not found" "Q" "Q" "E" ≠
      template_initial "Vertex not found" "Q" "Q" "E" "No confrontante found" "Z" "Z" "R" "R"
        "Vertex not found" "Q" "Q" "E" :=
  ⟨by with_unfolding_all rfl, by with_unfolding_all decide⟩

/-- C2 (amended): template choice is by loop index, not by narration
order: a narrated edge at index 0 is rendered with the opening template
(naming the starting vertex), and a narrated edge at any index `i ≠ 0` is
rendered with the continuation template; when edge 0 is degenerate no
narrated edge uses the opening template. -/
theorem c2_template_selection (C : Collab) (ss : List Entity) (entity : Entity)
    (vs : List (ℚ × ℚ)) (i : ℕ) (d t : String)
    (h : narrateEdge C ss entity vs i = Except.ok (some (d, t))) :
    (i = 0 → ∃ s, d = "Inicia-se a descrição deste perímetro no vértice " ++ s) ∧
    (i ≠ 0 → ∃ s, d = "Deste segue confrontando com " ++ s) := by
  unfold narrateEdge at h
  by_cases hdeg : (are_floats_equal (vs.getD i (0, 0)).1 (vs.getD ((i + 1) % vs.length) (0, 0)).1 &&
      are_floats_equal (vs.getD i (0, 0)).2 (vs.getD ((i + 1) % vs.length) (0, 0)).2) = true
  · rw [if_pos hdeg] at h
    exact Except.noConfusion h fun heq => Option.noConfusion heq
  · rw [if_neg hdeg] at h
    cases hadj : find_adjacent entity.Handle (vs.getD i (0, 0))
        (vs.getD ((i + 1) % vs.length) (0, 0)) ss with
    | error u =>
      rw [hadj] at h
      exact Except.noConfusion h
    | ok adj =>
      rw [hadj] at h
      rw [show ∀ (f : Option Entity → Except Unit (Option (String × String))),
          (Except.ok adj >>= f) = f adj from fun f => rfl] at h
      cases hat : adjacentText ss adj with
      | error u =>
        rw [hat] at h
        exact Except.noConfusion h
      | ok at' =>
        rw [hat] at h
        rw [show ∀ (f : String → Except Unit (Option (String × String))),
            (Except.ok at' >>= f) = f at' from fun f => rfl] at h
        have hd : d = (if i = 0 then
            template_initial (get_vertex_name entity ss (vs.getD i (0, 0)) (1 / 1000)).1
              (C.showQ (vs.getD i (0, 0)).1) (C.showQ (vs.getD i (0, 0)).2)
              (C.showElev (get_vertex_name entity ss (vs.getD i (0, 0)) (1 / 1000)).2) at'
              (C.showZ (intOf (azimuth_deg (vs.getD i (0, 0)) (vs.getD ((i + 1) % vs.length) (0, 0)))))
              (C.showZ (intOf ((azimuth_deg (vs.getD i (0, 0)) (vs.getD ((i + 1) % vs.length) (0, 0)) -
                (intOf (azimuth_deg (vs.getD i (0, 0)) (vs.getD ((i + 1) % vs.length) (0, 0))) : ℝ)) * 60)))
              (C.showR (round2R (((azimuth_deg (vs.getD i (0, 0)) (vs.getD ((i + 1) % vs.length) (0, 0)) -
                (intOf (azimuth_deg (vs.getD i (0, 0)) (vs.getD ((i + 1) % vs.length) (0, 0))) : ℝ)) * 60 -
                (intOf ((azimuth_deg (vs.getD i (0, 0)) (vs.getD ((i + 1) % vs.length) (0, 0)) -
                  (intOf (azimuth_deg (vs.getD i (0, 0)) (vs.getD ((i + 1) % vs.length) (0, 0))) : ℝ)) * 60) : ℝ)) * 60)))
              (C.showR (round2R (calculate_distance (vs.getD i (0, 0)) (vs.getD ((i + 1) % vs.length) (0, 0)))))
              (get_vertex_name entity ss (vs.getD ((i + 1) % vs.length) (0, 0)) (1 / 1000)).1
              (C.showQ (vs.getD ((i + 1) % vs.length) (0, 0)).1)
              (C.showQ (vs.getD ((i + 1) % vs.length) (0, 0)).2)
              (C.showElev (get_vertex_name entity ss (vs.getD ((i + 1) % vs.length) (0, 0)) (1 / 1000)).2)
          else
            template_other at'
              (C.showZ (intOf (azimuth_deg (vs.getD i (0, 0)) (vs.getD ((i + 1) % vs.length) (0, 0)))))
              (C.showZ (intOf ((azimuth_deg (vs.getD i (0, 0)) (vs.getD ((i + 1) % vs.length) (0, 0)) -
                (intOf (azimuth_deg (vs.getD i (0, 0)) (vs.getD ((i + 1) % vs.length) (0, 0))) : ℝ)) * 60)))
              (C.showR (round2R (((azimuth_deg (vs.getD i (0, 0)) (vs.getD ((i + 1) % vs.length) (0, 0)) -
                (intOf (azimuth_deg (vs.getD i (0, 0)) (vs.getD ((i + 1) % vs.length) (0, 0))) : ℝ)) * 60 -
                (intOf ((azimuth_deg (vs.getD i (0, 0)) (vs.getD ((i + 1) % vs.length) (0, 0)) -
                  (intOf (azimuth_deg (vs.getD i (0, 0)) (vs.getD ((i + 1) % vs.length) (0, 0))) : ℝ)) * 60) : ℝ)) * 60)))
              (C.showR (round2R (calculate_distance (vs.getD i (0, 0)) (vs.getD ((i + 1) % vs.length) (0, 0)))))
              (get_vertex_name entity ss (vs.getD ((i + 1) % vs.length) (0, 0)) (1 / 1000)).1
              (C.showQ (vs.getD ((i + 1) % vs.length) (0, 0)).1)
              (C.showQ (vs.getD ((i + 1) % vs.length) (0, 0)).2)
              (C.showElev (get_vertex_name entity ss (vs.getD ((i + 1) % vs.length) (0, 0)) (1 / 1000)).2)) := by
          have h' := h
          injection h' with h1
          injection h1 with h2
          exact congrArg Prod.fst h2.symm
        constructor
        · intro hi0
          subst hi0
          rw [hd, if_pos rfl]
          apply template_initial_opening
        · intro hi
          rw [hd, if_neg hi]
          apply template_other_continuation

/-- Witness for C2: the narrated edge at index 0 of a plain two-vertex ring
is rendered with the opening template text. -/
theorem c2_template_selection_witness :
    narrateEdge Cc [] (Entity.polyline 1 [] 0 0) [(0, 0), (10, 0)] 0 = Except.ok
      (some (template_initial "Vertex not found" "Q" "Q" "E" "No confrontante found" "Z" "Z" "R"
          "R" "Vertex not found" "Q" "Q" "E",
        template_table "Vertex not found" "Q" "Q" "E" "Vertex not found" "Q" "Q" "E" "R" "Z" "Z"
          "R")) ∧
    (∃ s, template_initial "Vertex not found" "Q" "Q" "E" "No confrontante found" "Z" "Z" "R" "R"
        "Vertex not found" "Q" "Q" "E" =
      "Inicia-se a descrição deste perímetro no vértice " ++ s) := by
  have h : narrateEdge Cc [] (Entity.polyline 1 [] 0 0) [(0, 0), (10, 0)] 0 = Except.ok
      (some (template_initial "Vertex not found" "Q" "Q" "E" "No confrontante found" "Z" "Z" "R"
          "R" "Vertex not found" "Q" "Q" "E",
        template_table "Vertex not found" "Q" "Q" "E" "Vertex not found" "Q" "Q" "E" "R" "Z" "Z"
          "R")) := by
    with_unfolding_all rfl
  exact ⟨h, (c2_template_selection Cc [] (Entity.polyline 1 [] 0 0) [(0, 0), (10, 0)] 0 _ _ h).1
    rfl⟩

/-- C1: The header render is invariant under the `quad_number` binding —
the template text carries the literal placeholder `QUADRA “XX”` and no
`quad_number` slot — so the quadra identifier extracted by the
`Quadra <token>` pattern can never appear in the emitted header: on a label
reading `Lote nº 12 Quadra 7` the extraction succeeds with `"7"`, yet the
emitted header shows the lot number `12` and not the quadra `7`. -/
theorem c1_header_quadra_bug :
    (∀ lot q q' area atext, template_header lot q area atext = template_header lot q' area atext) ∧
    searchQuadra "Lote nº 12 Quadra 7" = some "7" ∧
    headerOf (generate_text_from_polyline Cc (Entity.polyline 1 [0, 0, 10, 0] 250 40)
        [Entity.polyline 1 [0, 0, 10, 0] 250 40] "LBL" "Lote nº 12 Quadra 7") =
      "12 da QUADRA “XX”, com área de Qm² (W), com a seguinte descrição:" ∧
    containsSub "7" "12 da QUADRA “XX”, com área de Qm² (W), com a seguinte descrição:" = false ∧
    containsSub "12" "12 da QUADRA “XX”, com área de Qm² (W), com a seguinte descrição:" = true :=
  ⟨fun lot q q' area atext => rfl, by with_unfolding_all rfl, by with_unfolding_all rfl,
    by with_unfolding_all rfl, by with_unfolding_all rfl⟩

/-! ## Label Associator invariants (C8) -/

def isTextE (e : Entity) : Bool := isTextEntityName e.EntityName

/-- Invariant of the label-search state after consuming `processed`: either
nothing enclosed was seen and the state is initial, or the state holds the
first enclosed label of minimal centroid distance seen so far. -/
def gtipInv (center : ℚ × ℚ) (vertices : List ℚ) (processed : List Entity)
    (st : Option (ℚ × ℚ) × String × String) : Prop :=
  (st = (none, "", "") ∧ ∀ e ∈ processed, isTextE e = true →
    is_point_in_polygon e.Insertion vertices ≠ Except.ok true) ∨
  (∃ e ∈ processed, isTextE e = true ∧
    is_point_in_polygon e.Insertion vertices = Except.ok true ∧
    st = (some e.Insertion, cleanParagraphB e.TextString, e.TextString) ∧
    ∀ e' ∈ processed, isTextE e' = true →
      is_point_in_polygon e'.Insertion vertices = Except.ok true →
      calculate_distance center e.Insertion ≤ calculate_distance center e'.Insertion)

lemma gtipInv_extend_skip (center : ℚ × ℚ) (vertices : List ℚ) (pre : List Entity)
    (st : Option (ℚ × ℚ) × String × String) (e : Entity)
    (h : gtipInv center vertices pre st)
    (he : isTextE e = false ∨ is_point_in_polygon e.Insertion vertices ≠ Except.ok true) :
    gtipInv center vertices (pre ++ [e]) st := by
  rcases h with ⟨hst, hall⟩ | ⟨f, hf, h1, h2, h3, h4⟩
  · left
    refine ⟨hst, ?_⟩
    intro x hx hxt
    rcases List.mem_append.mp hx with hx | hx
    · exact hall x hx hxt
    · have hxe : x = e := by simpa using hx
      subst hxe
      rcases he with he | he
      · rw [hxt] at he
        exact Bool.noConfusion he
      · exact he
  · right
    refine ⟨f, List.mem_append_left _ hf, h1, h2, h3, ?_⟩
    intro x hx hxt hxin
    rcases List.mem_append.mp hx with hx | hx
    · exact h4 x hx hxt hxin
    · have hxe : x = e := by simpa using hx
      subst hxe
      rcases he with he | he
      · rw [hxt] at he
        exact Bool.noConfusion he
      · exact absurd hxin he

lemma gtipLoop_inv (center : ℚ × ℚ) (vertices : List ℚ) :
    ∀ (l pre : List Entity) (st : Option (ℚ × ℚ) × String × String),
      gtipInv center vertices pre st →
      (∀ e ∈ l, isTextE e = true →
        ∃ b, is_point_in_polygon e.Insertion vertices = Except.ok b) →
      ∃ st', gtipLoop center vertices l st = Except.ok st' ∧
        gtipInv center vertices (pre ++ l) st'
  | [], pre, st, hinv, _ => ⟨st, rfl, by simpa using hinv⟩
  | e :: rest, pre, st, hinv, herr => by
    have herr' : ∀ x ∈ rest, isTextE x = true →
        ∃ b, is_point_in_polygon x.Insertion vertices = Except.ok b :=
      fun x hx => herr x (List.mem_cons_of_mem e hx)
    have happ : (pre ++ [e]) ++ rest = pre ++ e :: rest := by simp
    unfold gtipLoop
    by_cases ht : isTextEntityName e.EntityName = true
    · rw [if_pos ht]
      obtain ⟨b, hb⟩ := herr e (List.mem_cons_self e rest) ht
      rw [hb]
      cases b with
      | false =>
        dsimp only
        rw [if_neg Bool.false_ne_true]
        obtain ⟨st', h1, h2⟩ := gtipLoop_inv center vertices rest (pre ++ [e]) st
          (gtipInv_extend_skip center vertices pre st e hinv (Or.inr (by simp [hb])))
          herr'
        exact ⟨st', h1, by rwa [happ] at h2⟩
      | true =>
        dsimp only
        rw [if_pos rfl]
        rcases hinv with ⟨hst, hnone⟩ | ⟨f, hf, hft, hfin, hst, hmin⟩
        · -- no enclosed label yet: the new label always wins
          rw [hst]
          dsimp only
          rw [if_pos rfl]
          have hinv' : gtipInv center vertices (pre ++ [e])
              (some e.Insertion, cleanParagraphB e.TextString, e.TextString) := by
            right
            refine ⟨e, List.mem_append_right _ (by simp), ht, hb, rfl, ?_⟩
            intro x hx hxt hxin
            rcases List.mem_append.mp hx with hx | hx
            · exact absurd hxin (hnone x hx hxt)
            · have hxe : x = e := by simpa using hx
              subst hxe
              exact le_refl _
          obtain ⟨st', h1, h2⟩ := gtipLoop_inv center vertices rest (pre ++ [e])
            (some e.Insertion, cleanParagraphB e.TextString, e.TextString) hinv' herr'
          exact ⟨st', h1, by rwa [happ] at h2⟩
        · -- a current best exists: strict improvement replaces it
          rw [hst]
          dsimp only
          by_cases hlt : calculate_distance center e.Insertion <
              calculate_distance center f.Insertion
          · rw [if_pos (decide_eq_true hlt)]
            have hinv' : gtipInv center vertices (pre ++ [e])
                (some e.Insertion, cleanParagraphB e.TextString, e.TextString) := by
              right
              refine ⟨e, List.mem_append_right _ (by simp), ht, hb, rfl, ?_⟩
              intro x hx hxt hxin
              rcases List.mem_append.mp hx with hx | hx
              · exact le_trans (le_of_lt hlt) (hmin x hx hxt hxin)
              · have hxe : x = e := by simpa using hx
                subst hxe
                exact le_refl _
            obtain ⟨st', h1, h2⟩ := gtipLoop_inv center vertices rest (pre ++ [e])
              (some e.Insertion, cleanParagraphB e.TextString, e.TextString) hinv' herr'
            exact ⟨st', h1, by rwa [happ] at h2⟩
          · rw [if_neg (by simpa using hlt)]
            have hinv' : gtipInv center vertices (pre ++ [e])
                (some f.Insertion, cleanParagraphB f.TextString, f.TextString) := by
              right
              refine ⟨f, List.mem_append_left _ hf, hft, hfin, rfl, ?_⟩
              intro x hx hxt hxin
              rcases List.mem_append.mp hx with hx | hx
              · exact hmin x hx hxt hxin
              · have hxe : x = e := by simpa using hx
                subst hxe
                exact le_of_not_lt hlt
            obtain ⟨st', h1, h2⟩ := gtipLoop_inv center vertices rest (pre ++ [e])
              (some f.Insertion, cleanParagraphB f.TextString, f.TextString) hinv' herr'
            exact ⟨st', h1, by rwa [happ] at h2⟩
    · rw [if_neg ht]
      obtain ⟨st', h1, h2⟩ := gtipLoop_inv center vertices rest (pre ++ [e]) st
        (gtipInv_extend_skip center vertices pre st e hinv
          (Or.inl (by simp [isTextE, ht])))
        herr'
      exact ⟨st', h1, by rwa [happ] at h2⟩

lemma stride2_cons_drop (y : ℚ) (rest : List ℚ) :
    stride2 (y :: rest) = y :: stride2 (rest.drop 1) := by
  cases rest
  · rfl
  · rfl

lemma stride2_pairUp_fst : ∀ flat : List ℚ, 2 ∣ flat.length →
    stride2 flat = (pairUp flat).map Prod.fst
  | [], _ => rfl
  | [x], h => by
    simp only [List.length_singleton] at h
    omega
  | x :: y :: rest, h => by
    have h' : 2 ∣ rest.length := by
      simp only [List.length_cons] at h
      omega
    simp [stride2, pairUp, stride2_pairUp_fst rest h']

lemma stride2_drop_pairUp_snd : ∀ flat : List ℚ, 2 ∣ flat.length →
    stride2 (flat.drop 1) = (pairUp flat).map Prod.snd
  | [], _ => rfl
  | [x], h => by
    simp only [List.length_singleton] at h
    omega
  | x :: y :: rest, h => by
    have h' : 2 ∣ rest.length := by
      simp only [List.length_cons] at h
      omega
    have hdrop : (x :: y :: rest).drop 1 = y :: rest := rfl
    rw [hdrop, stride2_cons_drop]
    have ih := stride2_drop_pairUp_snd rest h'
    simp only [pairUp, List.map_cons, ih]

/-- C8 counterexample: a label whose raw text is the bare control
sequence `\P` lies inside the square, yet the associator returns the
`"No text found"` sentinel as its cleaned component (the cleaned text is
empty), so the sentinel does not only mean "no label lies inside". -/
theorem c8_counterexample :
    get_text_inside_polyline (Entity.polyline 1 [0, 0, 10, 0, 10, 10, 0, 10] 100 40)
        [Entity.text 2 true (5, 5) "\\P"] =
      Except.ok (some "No text found", some "\\P") ∧
    is_point_in_polygon ((5 : ℚ), (5 : ℚ)) [0, 0, 10, 0, 10, 10, 0, 10] = Except.ok true :=
  ⟨by with_unfolding_all rfl, by with_unfolding_all rfl⟩

/-- C8 (amended): the Label Associator computes the centroid as the
arithmetic mean of the ring's vertex coordinates; and (over any selection
set on which the containment test of text labels succeeds) either no label
lies inside and the result is the `("No text found", "")` sentinel pair, or
there is an enclosed label of minimal Euclidean distance to that centroid
whose raw text is returned and whose cleaned text is returned when
nonempty — the sentinel standing in when the cleaned text is empty. -/
theorem c8_label_associator :
    (∀ flat : List ℚ, 2 ∣ flat.length →
      get_center flat = (((pairUp flat).map Prod.fst).sum / (((pairUp flat).length : ℚ)),
        ((pairUp flat).map Prod.snd).sum / (((pairUp flat).length : ℚ)))) ∧
    (∀ (h : ℕ) (coords : List ℚ) (area per : ℚ) (ss : List Entity),
      (∀ e ∈ ss, isTextE e = true →
        ∃ b, is_point_in_polygon e.Insertion coords = Except.ok b) →
      ((get_text_inside_polyline (Entity.polyline h coords area per) ss =
          Except.ok (some "No text found", some "") ∧
        ∀ e ∈ ss, isTextE e = true →
          is_point_in_polygon e.Insertion coords ≠ Except.ok true) ∨
      (∃ e ∈ ss, isTextE e = true ∧
        is_point_in_polygon e.Insertion coords = Except.ok true ∧
        (∀ e' ∈ ss, isTextE e' = true →
          is_point_in_polygon e'.Insertion coords = Except.ok true →
          calculate_distance (get_center coords) e.Insertion ≤
            calculate_distance (get_center coords) e'.Insertion) ∧
        get_text_inside_polyline (Entity.polyline h coords area per) ss =
          Except.ok (some (if cleanParagraphB e.TextString = "" then "No text found"
              else cleanPxqc (cleanParagraphB e.TextString)),
            some e.TextString)))) := by
  constructor
  · intro flat hdvd
    unfold get_center
    rw [stride2_pairUp_fst flat hdvd, stride2_drop_pairUp_snd flat hdvd]
    simp
  · intro h coords area per ss herr
    have hinv0 : gtipInv (get_center coords) coords [] (none, "", "") :=
      Or.inl ⟨rfl, by simp⟩
    obtain ⟨st', hloop, hinv⟩ :=
      gtipLoop_inv (get_center coords) coords ss [] (none, "", "") hinv0 herr
    rw [List.nil_append] at hinv
    have hrun : get_text_inside_polyline (Entity.polyline h coords area per) ss =
        Except.ok (some (if st'.2.1 = "" then "No text found" else cleanPxqc st'.2.1),
          some st'.2.2) := by
      unfold get_text_inside_polyline
      rw [if_neg (by simp [Entity.EntityName])]
      dsimp only
      simp only [Entity.Coordinates]
      rw [hloop]
      rfl
    rcases hinv with ⟨hst, hnone⟩ | ⟨e, he, ht, hin, hst, hmin⟩
    · left
      refine ⟨?_, hnone⟩
      rw [hrun, hst]
      simp
    · right
      refine ⟨e, he, ht, hin, hmin, ?_⟩
      rw [hrun, hst]

/-- Witness for C8: a single label `"A"` at the centre of the square is
selected and returned cleaned; the centroid of `[0,0,10,0]` is the vertex
mean. -/
theorem c8_label_associator_witness :
    ((2 : ℕ) ∣ ([0, 0, 10, 0] : List ℚ).length ∧
      get_center [0, 0, 10, 0] =
        (((pairUp [0, 0, 10, 0]).map Prod.fst).sum / (((pairUp [0, 0, 10, 0]).length : ℚ)),
          ((pairUp [0, 0, 10, 0]).map Prod.snd).sum /
            (((pairUp [0, 0, 10, 0]).length : ℚ)))) ∧
    ((∀ e ∈ [Entity.text 2 true (5, 5) "A"], isTextE e = true →
        ∃ b, is_point_in_polygon e.Insertion [0, 0, 10, 0, 10, 10, 0, 10] = Except.ok b) ∧
      ((get_text_inside_polyline (Entity.polyline 1 [0, 0, 10, 0, 10, 10, 0, 10] 100 40)
            [Entity.text 2 true (5, 5) "A"] = Except.ok (some "No text found", some "") ∧
          ∀ e ∈ [Entity.text 2 true (5, 5) "A"], isTextE e = true →
            is_point_in_polygon e.Insertion [0, 0, 10, 0, 10, 10, 0, 10] ≠ Except.ok true) ∨
        (∃ e ∈ [Entity.text 2 true (5, 5) "A"], isTextE e = true ∧
          is_point_in_polygon e.Insertion [0, 0, 10, 0, 10, 10, 0, 10] = Except.ok true ∧
          (∀ e' ∈ [Entity.text 2 true (5, 5) "A"], isTextE e' = true →
            is_point_in_polygon e'.Insertion [0, 0, 10, 0, 10, 10, 0, 10] = Except.ok true →
            calculate_distance (get_center [0, 0, 10, 0, 10, 10, 0, 10]) e.Insertion ≤
              calculate_distance (get_center [0, 0, 10, 0, 10, 10, 0, 10]) e'.Insertion) ∧
          get_text_inside_polyline (Entity.polyline 1 [0, 0, 10, 0, 10, 10, 0, 10] 100 40)
              [Entity.text 2 true (5, 5) "A"] =
            Except.ok (some (if cleanParagraphB e.TextString = ""
                then "No text found"
                else cleanPxqc (cleanParagraphB e.TextString)),
              some e.TextString)))) := by
  have herr : ∀ e ∈ [Entity.text 2 true (5, 5) "A"], isTextE e = true →
      ∃ b, is_point_in_polygon e.Insertion [0, 0, 10, 0, 10, 10, 0, 10] = Except.ok b := by
    intro e he _
    have hee : e = Entity.text 2 true (5, 5) "A" := by simpa using he
    subst hee
    exact ⟨true, by with_unfolding_all rfl⟩
  refine ⟨⟨by decide, c8_label_associator.1 [0, 0, 10, 0] (by decide)⟩, herr, ?_⟩
  exact c8_label_associator.2 1 [0, 0, 10, 0, 10, 10, 0, 10] 100 40
    [Entity.text 2 true (5, 5) "A"] herr
